import Mathlib

/-!
Shallow embedding of the `easy-imgui-rs` windowing/renderer glue
(`src/dear_imgui_renderer/src/window.rs`) and the style accessors
(`src/easy-imgui/src/style.rs`).

Conventions of the embedding:
* `Instant`/`Duration` are modelled as natural numbers of milliseconds;
  `Instant::duration_since` on a monotonic clock becomes truncated
  natural subtraction.
* `f32`/`f64` quantities (pixel coordinates, scale factors, colors) are
  modelled as rationals; float multiplication/division become the exact
  rational operations.
* FFI calls into the native libraries (`ImGuiIO_AddKeyEvent`,
  `set_cursor_icon`, `Surface::resize`, ...) are modelled as emitted
  effect values, collected in source order into a list.
-/

namespace EasyImgui

/-- Milliseconds of a monotonic clock, modelling `std::time::Instant`. -/
abbrev Ms := Nat

/-- Model of `winit::event_loop::ControlFlow` (the variants used by the code). -/
inductive ControlFlow where
  | Poll
  | Wait
  | Exit
deriving DecidableEq, Repr

/-- Model of `winit::window::CursorIcon` (the variants the cursor
translation can produce). -/
inductive CursorIcon where
  | Default
  | Text
  | Move
  | NsResize
  | EwResize
  | NeswResize
  | NwseResize
  | Hand
  | NotAllowed
deriving DecidableEq, Repr

/-- Model of `MainWindowStatus` from `window.rs`. -/
structure MainWindowStatus where
  last_frame : Ms
  last_input_time : Ms
  last_input_frame : Nat
  current_cursor : Option CursorIcon
deriving DecidableEq, Repr

/-- Model of `MainWindowStatus::default()`: all instants are "now",
the frame counter is zero, the cached cursor is the default arrow. -/
def MainWindowStatus.default (now : Ms) : MainWindowStatus :=
  { last_frame := now
    last_input_time := now
    last_input_frame := 0
    current_cursor := some CursorIcon.Default }

/-- Model of `MainWindowWithRenderer::ping_user_input`. -/
def ping_user_input (now : Ms) (st : MainWindowStatus) : MainWindowStatus :=
  { st with last_input_time := now, last_input_frame := 0 }

/-- Model of the `Event::RedrawEventsCleared` arm of
`MainWindowWithRenderer::do_event_with_data`: bump the frame counter,
then pick `Poll` when a mouse button is down (`ImGui_IsAnyMouseDown`),
when under 1000 ms have elapsed since the last input, or when the frame
counter is still under 60; otherwise pick `Wait`. -/
def redraw_events_cleared (now : Ms) (anyMouseDown : Bool)
    (st : MainWindowStatus) : MainWindowStatus × ControlFlow :=
  let st' := { st with last_input_frame := st.last_input_frame + 1 }
  if anyMouseDown || decide (now - st'.last_input_time < 1000)
      || decide (st'.last_input_frame < 60) then
    (st', ControlFlow.Poll)
  else
    (st', ControlFlow.Wait)

/-- Iterate the scheduler decision over a trace of
(current instant, any-mouse-down) observations, collecting the chosen
control flow of each `RedrawEventsCleared` step. -/
def runScheduler (st : MainWindowStatus) : List (Ms × Bool) → List ControlFlow
  | [] => []
  | (now, mouse) :: rest =>
      let p := redraw_events_cleared now mouse st
      p.2 :: runScheduler p.1 rest

/-- C1: after each rendered frame (`RedrawEventsCleared`), the scheduler
sets `ControlFlow::Poll` iff a mouse button is held, or strictly less
than 1000 ms elapsed since the last recorded input, or strictly fewer
than 60 frames have been counted since the last recorded input (the
counter after this frame's increment is `last_input_frame + 1`); in all
other cases it sets `ControlFlow::Wait`. -/
theorem redraw_schedule_poll_iff (now : Ms) (mouse : Bool)
    (st : MainWindowStatus) :
    ((redraw_events_cleared now mouse st).2 = ControlFlow.Poll ↔
      (mouse = true ∨ now - st.last_input_time < 1000 ∨
        st.last_input_frame + 1 < 60))
    ∧ ((redraw_events_cleared now mouse st).2 = ControlFlow.Wait ↔
      ¬(mouse = true ∨ now - st.last_input_time < 1000 ∨
        st.last_input_frame + 1 < 60)) := by
  unfold redraw_events_cleared
  by_cases hm : mouse = true <;>
    by_cases ht : now - st.last_input_time < 1000 <;>
      by_cases hf : st.last_input_frame + 1 < 60 <;>
        simp [hm, ht, hf]

/-! ### Cursor synchronizer (`Event::RedrawRequested` arm) -/

/-- Model of `easy-imgui`'s `MouseCursor` enum (the shape values the GUI
engine can request, bits 0 through 8). -/
inductive MouseCursor where
  | Arrow
  | TextInput
  | ResizeAll
  | ResizeNS
  | ResizeEW
  | ResizeNESW
  | ResizeNWSE
  | Hand
  | NotAllowed
deriving DecidableEq, Repr

/-- Modelled from the spec: `imgui::MouseCursor::from_bits` recognizes the
engine's cursor shape values (here bits 0 through 8) and returns `none` on
any unrecognized value; the code defaults that case to the arrow cursor.
The `easy-imgui` enum definition is not under `src/`. -/
def MouseCursor.from_bits : Int → Option MouseCursor
  | 0 => some MouseCursor.Arrow
  | 1 => some MouseCursor.TextInput
  | 2 => some MouseCursor.ResizeAll
  | 3 => some MouseCursor.ResizeNS
  | 4 => some MouseCursor.ResizeEW
  | 5 => some MouseCursor.ResizeNESW
  | 6 => some MouseCursor.ResizeNWSE
  | 7 => some MouseCursor.Hand
  | 8 => some MouseCursor.NotAllowed
  | _ => none

/-- Modelled from the spec: `crate::conv::from_imgui_cursor` translates the
engine's requested cursor shape to an OS cursor icon ("reconciles the GUI
engine's requested mouse cursor shape/visibility with the OS cursor").
`conv.rs` is not under `src/`. -/
def from_imgui_cursor : MouseCursor → Option CursorIcon
  | MouseCursor.Arrow => some CursorIcon.Default
  | MouseCursor.TextInput => some CursorIcon.Text
  | MouseCursor.ResizeAll => some CursorIcon.Move
  | MouseCursor.ResizeNS => some CursorIcon.NsResize
  | MouseCursor.ResizeEW => some CursorIcon.EwResize
  | MouseCursor.ResizeNESW => some CursorIcon.NeswResize
  | MouseCursor.ResizeNWSE => some CursorIcon.NwseResize
  | MouseCursor.Hand => some CursorIcon.Hand
  | MouseCursor.NotAllowed => some CursorIcon.NotAllowed

/-- A call into `winit` changing the OS cursor
(`Window::set_cursor_icon` / `Window::set_cursor_visible`). -/
inductive CursorCall where
  | setIcon (c : CursorIcon)
  | setVisible (b : Bool)
deriving DecidableEq, Repr

/-- Model of the cursor-synchronization block at the start of the
`Event::RedrawRequested` arm of `do_event_with_data`.  Inputs are the
`ImGuiConfigFlags_NoMouseCursorChange` bit of `io.ConfigFlags`,
`io.MouseDrawCursor`, the raw value of `ImGui_GetMouseCursor()`, and the
cached `status.current_cursor`.  Returns the new cached cursor and the
`winit` cursor calls made, in source order. -/
def cursor_sync (noMouseCursorChange : Bool) (mouseDrawCursor : Bool)
    (rawCursor : Int) (current : Option CursorIcon) :
    Option CursorIcon × List CursorCall :=
  if noMouseCursorChange then
    (current, [])
  else
    let cursor : Option CursorIcon :=
      if mouseDrawCursor then
        none
      else
        from_imgui_cursor ((MouseCursor.from_bits rawCursor).getD MouseCursor.Arrow)
    if cursor ≠ current then
      match cursor with
      | none => (cursor, [CursorCall.setVisible false])
      | some c => (cursor, [CursorCall.setIcon c, CursorCall.setVisible true])
    else
      (current, [])

/-- The OS-side cursor state affected by the `winit` cursor calls. -/
structure OsCursor where
  visible : Bool
  icon : CursorIcon
deriving DecidableEq, Repr

/-- Apply a cursor call to the OS cursor state. -/
def applyCursorCall (os : OsCursor) : CursorCall → OsCursor
  | CursorCall.setIcon c => { os with icon := c }
  | CursorCall.setVisible b => { os with visible := b }

/-- Apply a list of cursor calls in order. -/
def applyCursorCalls (os : OsCursor) : List CursorCall → OsCursor
  | [] => os
  | c :: cs => applyCursorCalls (applyCursorCall os c) cs

/-- The cached `status.current_cursor` reflects the OS cursor state:
`none` means the OS cursor is hidden, `some c` means it is visible and
shows icon `c`.  This is how `window.rs` uses the cache (it skips the
`winit` calls exactly when the cache already has the desired value). -/
def osMatchesCache (os : OsCursor) : Option CursorIcon → Prop
  | none => os.visible = false
  | some c => os.visible = true ∧ os.icon = c

/-- C2: while `NoMouseCursorChange` is set, a redraw performs no cursor
call, leaves the cached cursor unchanged, and leaves the OS cursor state
unchanged; the reconciliation code runs only when the flag is clear. -/
theorem cursor_sync_suppressed (mouseDrawCursor : Bool) (rawCursor : Int)
    (current : Option CursorIcon) (os : OsCursor) :
    cursor_sync true mouseDrawCursor rawCursor current = (current, [])
    ∧ applyCursorCalls os
        (cursor_sync true mouseDrawCursor rawCursor current).2 = os := by
  constructor
  · rfl
  · rfl

/-- C3: on a redraw with cursor changes not suppressed, if the engine
draws its own cursor (`io.MouseDrawCursor`) the OS cursor ends up
invisible; otherwise the requested shape — any unrecognized raw value
defaulting to the arrow cursor — is translated by `from_imgui_cursor`
and the OS cursor ends up visible and showing that icon.  The hypothesis
says the cached cursor reflects the OS cursor state. -/
theorem cursor_sync_reconciles (mouseDrawCursor : Bool) (rawCursor : Int)
    (current : Option CursorIcon) (os : OsCursor)
    (h : osMatchesCache os current) :
    let r := cursor_sync false mouseDrawCursor rawCursor current
    let os' := applyCursorCalls os r.2
    (mouseDrawCursor = true → os'.visible = false)
    ∧ (mouseDrawCursor = false → ∀ c : CursorIcon,
        from_imgui_cursor ((MouseCursor.from_bits rawCursor).getD MouseCursor.Arrow)
          = some c →
        os'.visible = true ∧ os'.icon = c) := by
  intro r os'
  by_cases hd : mouseDrawCursor = true
  · subst hd
    refine ⟨fun _ => ?_, fun hc => by simp at hc⟩
    show (applyCursorCalls os (cursor_sync false true rawCursor current).2).visible = false
    unfold cursor_sync
    by_cases hcur : (none : Option CursorIcon) ≠ current
    · simp only [if_false, if_pos hcur, Bool.false_eq_true, if_true]
      rfl
    · simp only [ne_eq, not_not] at hcur
      rw [← hcur] at h
      simp only [if_false, ← hcur]
      simpa [osMatchesCache, applyCursorCalls] using h
  · have hd' : mouseDrawCursor = false := by
      cases mouseDrawCursor
      · rfl
      · exact absurd rfl hd
    subst hd'
    refine ⟨fun hc => by simp at hc, fun _ c hc => ?_⟩
    show (applyCursorCalls os (cursor_sync false false rawCursor current).2).visible = true
      ∧ (applyCursorCalls os (cursor_sync false false rawCursor current).2).icon = c
    unfold cursor_sync
    simp only [if_false, Bool.false_eq_true, if_neg (by simp : ¬False), hc]
    by_cases hcur : (some c : Option CursorIcon) ≠ current
    · simp only [if_pos hcur]
      exact ⟨rfl, rfl⟩
    · simp only [ne_eq, not_not] at hcur
      rw [← hcur] at h
      simp only [if_neg (by simp [hcur] : ¬(some c ≠ current))]
      simpa [osMatchesCache, applyCursorCalls] using h

/-- Witness for C3 at a concrete input: OS cursor visible with the
default icon, cache `some Default`, engine requesting the hand cursor. -/
theorem cursor_sync_reconciles_witness :
    (applyCursorCalls { visible := true, icon := CursorIcon.Default }
        (cursor_sync false false 7 (some CursorIcon.Default)).2).visible = true
    ∧ (applyCursorCalls { visible := true, icon := CursorIcon.Default }
        (cursor_sync false false 7 (some CursorIcon.Default)).2).icon
      = CursorIcon.Hand :=
  (cursor_sync_reconciles false 7 (some CursorIcon.Default)
      { visible := true, icon := CursorIcon.Default }
      (by constructor <;> rfl)).2 rfl CursorIcon.Hand rfl

/-! ### Event translator (`Event::WindowEvent` arm) -/

/-- Model of `winit::event::VirtualKeyCode`, restricted to representative
keycodes: the eight left/right modifier keys used by the `kmod` match in
`do_event_with_data`, a few ordinary keys, and `Sysrq` as a keycode with
no GUI-engine mapping. -/
inductive VirtualKeyCode where
  | A
  | Escape
  | Return
  | F1
  | LControl
  | RControl
  | LShift
  | RShift
  | LAlt
  | RAlt
  | LWin
  | RWin
  | Sysrq
deriving DecidableEq, Repr

/-- Model of the GUI engine's key identifiers (`ImGuiKey` values),
including the modifier-flag keys that `imgui::KeyMod` bits denote. -/
inductive ImGuiKey where
  | A
  | Escape
  | Enter
  | F1
  | LeftCtrl
  | RightCtrl
  | LeftShift
  | RightShift
  | LeftAlt
  | RightAlt
  | LeftSuper
  | RightSuper
  | ModCtrl
  | ModShift
  | ModAlt
  | ModSuper
deriving DecidableEq, Repr

/-- Model of `imgui::KeyMod` (Ctrl/Shift/Alt/Super modifier flags). -/
inductive KeyMod where
  | Ctrl
  | Shift
  | Alt
  | Super
deriving DecidableEq, Repr

/-- The `ImGuiKey` denoted by a `KeyMod`'s bits. -/
def modKey : KeyMod → ImGuiKey
  | KeyMod.Ctrl => ImGuiKey.ModCtrl
  | KeyMod.Shift => ImGuiKey.ModShift
  | KeyMod.Alt => ImGuiKey.ModAlt
  | KeyMod.Super => ImGuiKey.ModSuper

/-- Modelled from the spec: `crate::conv::to_imgui_key` "maps each incoming
windowing event (keyboard ...) to the GUI engine's expected input
primitives"; keycodes without a GUI-engine mapping give `none`.
`conv.rs` is not under `src/`. -/
def to_imgui_key : VirtualKeyCode → Option ImGuiKey
  | VirtualKeyCode.A => some ImGuiKey.A
  | VirtualKeyCode.Escape => some ImGuiKey.Escape
  | VirtualKeyCode.Return => some ImGuiKey.Enter
  | VirtualKeyCode.F1 => some ImGuiKey.F1
  | VirtualKeyCode.LControl => some ImGuiKey.LeftCtrl
  | VirtualKeyCode.RControl => some ImGuiKey.RightCtrl
  | VirtualKeyCode.LShift => some ImGuiKey.LeftShift
  | VirtualKeyCode.RShift => some ImGuiKey.RightShift
  | VirtualKeyCode.LAlt => some ImGuiKey.LeftAlt
  | VirtualKeyCode.RAlt => some ImGuiKey.RightAlt
  | VirtualKeyCode.LWin => some ImGuiKey.LeftSuper
  | VirtualKeyCode.RWin => some ImGuiKey.RightSuper
  | VirtualKeyCode.Sysrq => none

/-- The `kmod` match inside the `KeyboardInput` arm of
`do_event_with_data`: left/right Ctrl, Shift, Alt, Win keycodes carry an
extra modifier flag; every other keycode carries none. -/
def keyboard_kmod : VirtualKeyCode → Option KeyMod
  | VirtualKeyCode.LControl | VirtualKeyCode.RControl => some KeyMod.Ctrl
  | VirtualKeyCode.LShift | VirtualKeyCode.RShift => some KeyMod.Shift
  | VirtualKeyCode.LAlt | VirtualKeyCode.RAlt => some KeyMod.Alt
  | VirtualKeyCode.LWin | VirtualKeyCode.RWin => some KeyMod.Super
  | _ => none

/-- Model of `winit::event::MouseButton`. -/
inductive MouseButton where
  | Left
  | Right
  | Middle
  | Other (n : Nat)
deriving DecidableEq, Repr

/-- Modelled from the spec: `crate::conv::to_imgui_button` maps the
windowing mouse buttons to the GUI engine's button indices; buttons
without a mapping give `none`.  `conv.rs` is not under `src/`. -/
def to_imgui_button : MouseButton → Option Nat
  | MouseButton.Left => some 0
  | MouseButton.Right => some 1
  | MouseButton.Middle => some 2
  | MouseButton.Other _ => none

/-- Model of `winit::event::MouseScrollDelta`. -/
inductive MouseScrollDelta where
  | LineDelta (h v : ℚ)
  | PixelDelta (x y : ℚ)
deriving DecidableEq, Repr

/-- Rational value of `f32::MAX`, the sentinel mouse position sent on
`CursorLeft`. -/
def f32MAX : ℚ := 2 ^ 128 - 2 ^ 104

/-- Model of `MainWindow::to_logical_size`: divide physical pixels by the
window's scale factor (`winit`'s `PhysicalSize::to_logical`). -/
def to_logical_size (scale : ℚ) (size : ℚ × ℚ) : ℚ × ℚ :=
  (size.1 / scale, size.2 / scale)

/-- Model of `MainWindow::to_logical_pos`: divide physical pixels by the
window's scale factor (`winit`'s `PhysicalPosition::to_logical`). -/
def to_logical_pos (scale : ℚ) (pos : ℚ × ℚ) : ℚ × ℚ :=
  (pos.1 / scale, pos.2 / scale)

/-- Model of the `winit::event::WindowEvent` payloads handled by the
inner match of `do_event_with_data`.  `Resized` carries the physical
`u32` size; `KeyboardInput` carries `input.virtual_keycode` and whether
`input.state` is `Pressed`; `MouseWheel` carries the delta and whether
`phase` is `TouchPhase::Moved`; `Other` stands for every payload the
final `_ => {}` arm ignores. -/
inductive WindowEvent where
  | CloseRequested
  | Resized (width height : Nat)
  | ScaleFactorChanged (scale_factor : ℚ) (new_inner_width new_inner_height : Nat)
  | ModifiersChanged (ctrl shift alt logo : Bool)
  | KeyboardInput (virtual_keycode : Option VirtualKeyCode) (pressed : Bool)
  | ReceivedCharacter (c : Nat)
  | CursorMoved (x y : ℚ)
  | MouseWheel (delta : MouseScrollDelta) (phaseMoved : Bool)
  | MouseInput (pressed : Bool) (button : MouseButton)
  | CursorLeft
  | Focused (focused : Bool)
  | Other
deriving DecidableEq, Repr

/-- An observable effect of the window-event handler: a call into the
GUI engine's IO (`ImGuiIO_Add*`), a write of `io.DisplaySize`, a GL
surface resize, a renderer resize, the mouse-position rescale on DPI
change, or setting `ControlFlow::Exit`. -/
inductive Effect where
  | exitLoop
  | surfaceResize (w h : Nat)
  | setDisplaySize (x y : ℚ)
  | scaleMousePos (factor : ℚ)
  | rendererSetSize (x y scale_factor : ℚ)
  | addKeyEvent (key : ImGuiKey) (pressed : Bool)
  | addInputCharacter (c : Nat)
  | addMousePosEvent (x y : ℚ)
  | addMouseWheelEvent (h v : ℚ)
  | addMouseButtonEvent (button : Nat) (pressed : Bool)
  | addFocusEvent (focused : Bool)
deriving DecidableEq, Repr

/-- The parts of the GUI engine's IO state the translator reads:
`io.DisplayFramebufferScale.x` and whether `io.MousePos` is finite. -/
structure IoCtx where
  displayFramebufferScaleX : ℚ
  mousePosFinite : Bool
deriving DecidableEq, Repr

/-- Model of the inner `match event` of the `Event::WindowEvent` arm of
`do_event_with_data`, emitting the effects of each arm in source order.
`scale` is `window.scale_factor()`. -/
def translate_window_event (scale : ℚ) (io : IoCtx) : WindowEvent → List Effect
  | WindowEvent.CloseRequested => [Effect.exitLoop]
  | WindowEvent.Resized w h =>
      (if w ≠ 0 ∧ h ≠ 0 then [Effect.surfaceResize w h] else [])
        ++ [Effect.setDisplaySize (to_logical_size scale ((w : ℚ), (h : ℚ))).1
              (to_logical_size scale ((w : ℚ), (h : ℚ))).2]
  | WindowEvent.ScaleFactorChanged sf w h =>
      (if io.mousePosFinite then
        [Effect.scaleMousePos (sf / io.displayFramebufferScaleX)]
      else [])
        ++ [Effect.rendererSetSize (to_logical_size scale ((w : ℚ), (h : ℚ))).1
              (to_logical_size scale ((w : ℚ), (h : ℚ))).2 sf]
  | WindowEvent.ModifiersChanged ctrl shift alt logo =>
      [Effect.addKeyEvent (modKey KeyMod.Ctrl) ctrl,
       Effect.addKeyEvent (modKey KeyMod.Shift) shift,
       Effect.addKeyEvent (modKey KeyMod.Alt) alt,
       Effect.addKeyEvent (modKey KeyMod.Super) logo]
  | WindowEvent.KeyboardInput (some wkey) pressed =>
      (match to_imgui_key wkey with
       | some key =>
           Effect.addKeyEvent key pressed ::
             (match keyboard_kmod wkey with
              | some kmod => [Effect.addKeyEvent (modKey kmod) pressed]
              | none => [])
       | none => [])
  | WindowEvent.KeyboardInput none _ => []
  | WindowEvent.ReceivedCharacter c => [Effect.addInputCharacter c]
  | WindowEvent.CursorMoved x y =>
      [Effect.addMousePosEvent (to_logical_pos scale (x, y)).1
        (to_logical_pos scale (x, y)).2]
  | WindowEvent.MouseWheel delta phaseMoved =>
      if phaseMoved then
        match delta with
        | MouseScrollDelta.LineDelta h v => [Effect.addMouseWheelEvent h v]
        | MouseScrollDelta.PixelDelta x y => [Effect.addMouseWheelEvent x y]
      else []
  | WindowEvent.MouseInput pressed button =>
      (match to_imgui_button button with
       | some btn => [Effect.addMouseButtonEvent btn pressed]
       | none => [])
  | WindowEvent.CursorLeft => [Effect.addMousePosEvent f32MAX f32MAX]
  | WindowEvent.Focused f => [Effect.addFocusEvent f]
  | WindowEvent.Other => []

/-- Model of the whole `Event::WindowEvent` arm for an event addressed to
the main window: `ping_user_input()` runs first, then the event is
translated (the inner match reads no scheduler state). -/
def window_event_step (scale : ℚ) (io : IoCtx) (now : Ms)
    (ev : WindowEvent) (st : MainWindowStatus) :
    MainWindowStatus × List Effect :=
  (ping_user_input now st, translate_window_event scale io ev)

/-- C5: every cursor-moved event forwards the physical position divided
by the window's scale factor (`to_logical_pos`) as the engine's
mouse-position event, and every resize event forwards the new size in
logical pixels (`to_logical_size`) as the engine's display size. -/
theorem cursor_moved_and_resized_logical (scale : ℚ) (io : IoCtx) (now : Ms)
    (x y : ℚ) (w h : Nat) (st : MainWindowStatus) :
    (window_event_step scale io now (WindowEvent.CursorMoved x y) st).2
      = [Effect.addMousePosEvent (x / scale) (y / scale)]
    ∧ Effect.setDisplaySize ((w : ℚ) / scale) ((h : ℚ) / scale)
        ∈ (window_event_step scale io now (WindowEvent.Resized w h) st).2 := by
  constructor
  · rfl
  · simp [window_event_step, translate_window_event, to_logical_size]

/-- C6: a keyboard event whose virtual keycode has a GUI-engine mapping
forwards exactly one key event (the mapped key with the event's
pressed/released state), followed by exactly one modifier-flag key event
with the same state when the keycode is a left/right Ctrl, Shift, Alt or
Win key; a keyboard event whose keycode has no mapping forwards
nothing. -/
theorem keyboard_key_forwarding (scale : ℚ) (io : IoCtx) (now : Ms)
    (wkey : VirtualKeyCode) (pressed : Bool) (st : MainWindowStatus) :
    (to_imgui_key wkey = none →
      (window_event_step scale io now
        (WindowEvent.KeyboardInput (some wkey) pressed) st).2 = [])
    ∧ (∀ key, to_imgui_key wkey = some key →
        (window_event_step scale io now
          (WindowEvent.KeyboardInput (some wkey) pressed) st).2
          = Effect.addKeyEvent key pressed ::
              (match keyboard_kmod wkey with
               | some kmod => [Effect.addKeyEvent (modKey kmod) pressed]
               | none => [])) := by
  cases wkey <;>
    simp [window_event_step, translate_window_event, to_imgui_key, keyboard_kmod]

/-- Witness for C6 at a concrete input: pressing the left Ctrl key
forwards the `LeftCtrl` key event followed by the Ctrl modifier-flag
event. -/
theorem keyboard_key_forwarding_witness :
    (window_event_step 1 { displayFramebufferScaleX := 1, mousePosFinite := true }
        0 (WindowEvent.KeyboardInput (some VirtualKeyCode.LControl) true)
        (MainWindowStatus.default 0)).2
      = [Effect.addKeyEvent ImGuiKey.LeftCtrl true,
         Effect.addKeyEvent (modKey KeyMod.Ctrl) true] :=
  (keyboard_key_forwarding 1 { displayFramebufferScaleX := 1, mousePosFinite := true }
      0 VirtualKeyCode.LControl true (MainWindowStatus.default 0)).2
    ImGuiKey.LeftCtrl rfl

/-- The GL-surface resize calls among a list of effects. -/
def surfaceResizes (effs : List Effect) : List (Nat × Nat) :=
  effs.filterMap fun e =>
    match e with
    | Effect.surfaceResize w h => some (w, h)
    | _ => none

/-- C9: on a resize whose width or height is zero the GL surface is not
resized (no `Surface::resize` call, which requires `NonZeroU32`
dimensions), while the engine's display size is still set to the logical
size; with both dimensions nonzero the surface is resized to exactly the
reported physical size. -/
theorem resized_zero_skips_surface (scale : ℚ) (io : IoCtx) (now : Ms)
    (w h : Nat) (st : MainWindowStatus) :
    surfaceResizes
        (window_event_step scale io now (WindowEvent.Resized w h) st).2
      = (if w = 0 ∨ h = 0 then [] else [(w, h)])
    ∧ Effect.setDisplaySize ((w : ℚ) / scale) ((h : ℚ) / scale)
        ∈ (window_event_step scale io now (WindowEvent.Resized w h) st).2 := by
  constructor
  · by_cases hw : w = 0 <;> by_cases hh : h = 0 <;>
      simp [window_event_step, translate_window_event, surfaceResizes, hw, hh]
  · simp [window_event_step, translate_window_event, to_logical_size]

/-- After a scheduler step, the frame counter has been incremented. -/
theorem redraw_frame_succ (now : Ms) (mouse : Bool) (st : MainWindowStatus) :
    (redraw_events_cleared now mouse st).1.last_input_frame
      = st.last_input_frame + 1 := by
  unfold redraw_events_cleared
  dsimp only
  split <;> rfl

/-- A scheduler step with an incremented counter still under 60 picks
`Poll`, whatever the clock and mouse say. -/
theorem redraw_poll_of_frame_lt (now : Ms) (mouse : Bool)
    (st : MainWindowStatus) (hf : st.last_input_frame + 1 < 60) :
    (redraw_events_cleared now mouse st).2 = ControlFlow.Poll := by
  unfold redraw_events_cleared
  simp [hf]

/-- Every decision of a scheduler run that starts with a frame counter
small enough to stay under 60 throughout is `Poll`. -/
theorem runScheduler_poll_of_recent (steps : List (Ms × Bool)) :
    ∀ st : MainWindowStatus, st.last_input_frame + steps.length < 60 →
      ∀ cf ∈ runScheduler st steps, cf = ControlFlow.Poll := by
  induction steps with
  | nil =>
      intro st _ cf hcf
      simp [runScheduler] at hcf
  | cons p rest ih =>
      intro st hlen cf hcf
      obtain ⟨now, mouse⟩ := p
      simp only [runScheduler, List.mem_cons] at hcf
      rcases hcf with h1 | h2
      · subst h1
        exact redraw_poll_of_frame_lt now mouse st (by
          simp only [List.length_cons] at hlen
          omega)
      · refine ih (redraw_events_cleared now mouse st).1 ?_ cf h2
        rw [redraw_frame_succ]
        simp only [List.length_cons] at hlen
        omega

/-- C8 (amended): every window event addressed to the main window —
close-requested, focus, cursor-left, and all others alike — resets the
input-recency state before translation (`last_input_time` becomes the
current instant, the frame counter becomes zero), so the scheduler is
guaranteed to pick continuous polling at each of the next 59
redraw-scheduling decisions; at the 60th decision polling is picked only
if a mouse button is held or under 1000 ms have elapsed. -/
theorem window_event_resets_input_recency (scale : ℚ) (io : IoCtx)
    (now : Ms) (ev : WindowEvent) (st : MainWindowStatus)
    (steps : List (Ms × Bool)) (hlen : steps.length ≤ 59) :
    (window_event_step scale io now ev st).1.last_input_time = now
    ∧ (window_event_step scale io now ev st).1.last_input_frame = 0
    ∧ ∀ cf ∈ runScheduler (window_event_step scale io now ev st).1 steps,
        cf = ControlFlow.Poll := by
  refine ⟨rfl, rfl, ?_⟩
  apply runScheduler_poll_of_recent
  rw [show (window_event_step scale io now ev st).1.last_input_frame = 0 from rfl]
  omega

/-- Witness for C8 at a concrete input: after a cursor-left event, 59
scheduler decisions far in the future, with no mouse button held, all
pick `Poll`. -/
theorem window_event_resets_input_recency_witness :
    runScheduler
        (window_event_step 1
          { displayFramebufferScaleX := 1, mousePosFinite := true } 0
          WindowEvent.CursorLeft (MainWindowStatus.default 0)).1
        (List.replicate 59 (5000, false))
      = List.replicate 59 ControlFlow.Poll :=
  List.eq_replicate_iff.mpr
    ⟨by decide,
      (window_event_resets_input_recency 1
          { displayFramebufferScaleX := 1, mousePosFinite := true } 0
          WindowEvent.CursorLeft (MainWindowStatus.default 0)
          (List.replicate 59 (5000, false)) (by decide)).2.2⟩

/-- Counterexample to C8 as stated: after a close-requested window event
at instant 0, run 60 scheduler decisions at instant 2000 ms with no
mouse button held; the first 59 pick `Poll` but the 60th picks `Wait`,
so polling is not guaranteed for the next 60 frames. -/
theorem window_event_sixty_frames_counterexample :
    runScheduler
        (window_event_step 1
          { displayFramebufferScaleX := 1, mousePosFinite := true } 0
          WindowEvent.CloseRequested (MainWindowStatus.default 0)).1
        (List.replicate 60 (2000, false))
      = List.replicate 59 ControlFlow.Poll ++ [ControlFlow.Wait] := by
  decide

/-! ### Window/context bootstrap (`MainWindow::new`) -/

/-- Model of the `glutin` `ConfigTemplateBuilder` settings requested by
`MainWindow::new`. -/
structure ConfigTemplate where
  prefer_hardware_accelerated : Option Bool
  depth_size : Nat
  stencil_size : Nat
deriving DecidableEq, Repr

/-- The GL config template built in `MainWindow::new`: prefer hardware
acceleration, no depth, no stencil. -/
def window_config_template : ConfigTemplate :=
  { prefer_hardware_accelerated := some true
    depth_size := 0
    stencil_size := 0 }

/-- Model of `glutin::context::ContextApi`. -/
inductive ContextApi where
  | OpenGl (version : Option Nat)
  | Gles (version : Option Nat)
deriving DecidableEq, Repr

/-- Model of the `glutin` context attributes: only the optional
`with_context_api` choice matters here. -/
structure ContextAttributes where
  api : Option ContextApi
deriving DecidableEq, Repr

/-- The primary context attributes built in `MainWindow::new`: no
explicit API, i.e. the platform's preferred (hardware GL) API. -/
def primary_context_attributes : ContextAttributes :=
  { api := none }

/-- The fallback context attributes built in `MainWindow::new`:
`ContextApi::Gles(None)`, the software-compatible API. -/
def fallback_context_attributes : ContextAttributes :=
  { api := some (ContextApi.Gles none) }

/-- Outcomes of the host-system calls `MainWindow::new` makes, in the
order the code makes them: display/window building, creating a context
with the primary attributes, creating one with the fallback attributes,
the window's inner size, creating the window surface, and making the
context current. -/
structure GlHostEnv where
  display_build_ok : Bool
  primary_context_ok : Bool
  fallback_context_ok : Bool
  inner_width : Nat
  inner_height : Nat
  surface_ok : Bool
  make_current_ok : Bool
deriving DecidableEq, Repr

/-- The stage of `MainWindow::new` an error is propagated from (each
`?` in the source). -/
inductive NewStage where
  | displayBuild
  | createContext
  | createSurface
  | makeCurrent
deriving DecidableEq, Repr

/-- Result of `MainWindow::new`: success (recording whether the fallback
context was the one created), an `Err` from one of the fallible stages,
or the `unwrap` failure on a zero-sized window
(`NonZeroU32::new(width).unwrap()`). -/
inductive NewResult where
  | ok (usedFallback : Bool)
  | err (stage : NewStage)
  | panicked
deriving DecidableEq, Repr

/-- The part of `MainWindow::new` after a context was created: build the
surface attributes (unwrapping `NonZeroU32::new` of the inner size),
create the window surface, make the context current. -/
def finish_window_setup (env : GlHostEnv) (usedFallback : Bool) : NewResult :=
  if env.inner_width = 0 ∨ env.inner_height = 0 then NewResult.panicked
  else if !env.surface_ok then NewResult.err NewStage.createSurface
  else if !env.make_current_ok then NewResult.err NewStage.makeCurrent
  else NewResult.ok usedFallback

/-- Model of `MainWindow::new` over the host-system outcomes: build the
display and window, create the GL context with the primary attributes,
falling back to the Gles attributes on failure (`or_else`), then finish
the surface setup. -/
def MainWindow.new (env : GlHostEnv) : NewResult :=
  if !env.display_build_ok then NewResult.err NewStage.displayBuild
  else if env.primary_context_ok then finish_window_setup env false
  else if env.fallback_context_ok then finish_window_setup env true
  else NewResult.err NewStage.createContext

/-- Counterexample to C4 as stated: with the display built and the
primary context created successfully, a failure to create the window
surface still makes `MainWindow::new` return an error, so an error does
not imply that both context-creation attempts failed. -/
theorem main_window_new_error_counterexample :
    MainWindow.new
        { display_build_ok := true, primary_context_ok := true,
          fallback_context_ok := true, inner_width := 800,
          inner_height := 600, surface_ok := false,
          make_current_ok := true }
      = NewResult.err NewStage.createSurface
    ∧ (({ display_build_ok := true, primary_context_ok := true,
          fallback_context_ok := true, inner_width := 800,
          inner_height := 600, surface_ok := false,
          make_current_ok := true } : GlHostEnv)).primary_context_ok
      = true := by
  decide

/-- C4 (amended): the bootstrap requests a GL configuration preferring
hardware acceleration, and on primary context-creation failure falls
back to a `Gles` (software-compatible) context; the context-creation
stage errors exactly when both attempts fail, and a successful
`MainWindow::new` used the fallback exactly when the primary attempt
failed.  `MainWindow::new` can, however, also return an error from the
display build, the surface creation, or making the context current. -/
theorem main_window_new_fallback (env : GlHostEnv) :
    window_config_template.prefer_hardware_accelerated = some true
    ∧ fallback_context_attributes.api = some (ContextApi.Gles none)
    ∧ (MainWindow.new env = NewResult.err NewStage.createContext ↔
        env.display_build_ok = true ∧ env.primary_context_ok = false
          ∧ env.fallback_context_ok = false)
    ∧ (∀ b, MainWindow.new env = NewResult.ok b →
        b = !env.primary_context_ok) := by
  refine ⟨rfl, rfl, ?_, ?_⟩
  · unfold MainWindow.new finish_window_setup
    obtain ⟨d, p, f, w, h, s, m⟩ := env
    cases d <;> cases p <;> cases f <;> cases s <;> cases m <;>
      by_cases hw : w = 0 <;> by_cases hh : h = 0 <;> simp_all
  · intro b hb
    unfold MainWindow.new finish_window_setup at hb
    obtain ⟨d, p, f, w, h, s, m⟩ := env
    cases d <;> cases p <;> cases f <;> cases s <;> cases m <;>
      by_cases hw : w = 0 <;> by_cases hh : h = 0 <;> simp_all

/-- Witness for C4's amended theorem at a concrete input: with the
primary context failing and the fallback succeeding (and every later
stage fine), `MainWindow::new` succeeds using the fallback context. -/
theorem main_window_new_fallback_witness :
    MainWindow.new
        { display_build_ok := true, primary_context_ok := false,
          fallback_context_ok := true, inner_width := 800,
          inner_height := 600, surface_ok := true,
          make_current_ok := true }
      = NewResult.ok true
    ∧ (true : Bool)
      = !({ display_build_ok := true, primary_context_ok := false,
            fallback_context_ok := true, inner_width := 800,
            inner_height := 600, surface_ok := true,
            make_current_ok := true } : GlHostEnv).primary_context_ok :=
  ⟨by decide,
    (main_window_new_fallback
        { display_build_ok := true, primary_context_ok := false,
          fallback_context_ok := true, inner_width := 800,
          inner_height := 600, surface_ok := true,
          make_current_ok := true }).2.2.2 true (by decide)⟩

/-! ### Style accessors (`easy-imgui/src/style.rs`) -/

/-- The methods of `StylePtr` in `style.rs`, the common API behind both
`Style` and `StyleMut`. -/
inductive StyleOp where
  | set_colors_light
  | set_colors_dark
  | set_colors_classic
  | color
  | alpha
  | set_color
  | set_alpha
  | color_alpha
  | frame_padding
  | frame_rounding
  | frame_border_size
  | item_spacing
  | item_inner_spacing
deriving DecidableEq, Repr

/-- Whether a `StylePtr` method takes `&mut self` in `style.rs`
(the `set_*` methods) and hence can modify the style state. -/
def StyleOp.mutates : StyleOp → Bool
  | StyleOp.set_colors_light => true
  | StyleOp.set_colors_dark => true
  | StyleOp.set_colors_classic => true
  | StyleOp.set_color => true
  | StyleOp.set_alpha => true
  | _ => false

/-- The two wrapper types over `StylePtr`: `Style` (only `Deref`, so
only `&self` methods are reachable) and `StyleMut` (`Deref` and
`DerefMut`, so every method is reachable). -/
inductive StyleAccess where
  | immutableRef
  | mutableRef
deriving DecidableEq, Repr

/-- Which `StylePtr` methods each wrapper exposes, following the `Deref`
and `DerefMut` impls of `style.rs`: an `&mut self` method is reachable
only through `DerefMut`. -/
def StyleAccess.exposes : StyleAccess → StyleOp → Bool
  | StyleAccess.immutableRef, op => !op.mutates
  | StyleAccess.mutableRef, _ => true

/-- Model of `easy-imgui`'s `Context`: the GUI context when no frame is
in progress (a frame borrows it mutably for its whole duration). -/
structure Context where
  mk' ::
deriving DecidableEq, Repr

/-- Model of `easy-imgui`'s `Ui`: a running frame. -/
structure Ui where
  mk' ::
deriving DecidableEq, Repr

/-- Model of `Context::style` in `style.rs`: a mutable `Context` yields
a `StyleMut`. -/
def Context.style (_ : Context) : StyleAccess :=
  StyleAccess.mutableRef

/-- Model of `Ui::style` in `style.rs`: a running frame yields an
immutable `Style`. -/
def Ui.style (_ : Ui) : StyleAccess :=
  StyleAccess.immutableRef

/-- C7: of the two accessors in `style.rs`, only the one on a mutable
`Context` (no frame in progress) yields the mutable `StyleMut`, which
exposes every method including the mutating `set_*` ones; the accessor
on a running-frame `Ui` yields the immutable `Style`, and every method
`Style` exposes is non-mutating. -/
theorem style_mutability_split (c : Context) (u : Ui) :
    Context.style c = StyleAccess.mutableRef
    ∧ Ui.style u = StyleAccess.immutableRef
    ∧ (∀ op : StyleOp, (Ui.style u).exposes op = true → op.mutates = false)
    ∧ (∀ op : StyleOp, (Context.style c).exposes op = true)
    ∧ StyleOp.set_alpha.mutates = true := by
  refine ⟨rfl, rfl, ?_, ?_, rfl⟩
  · intro op hop
    cases op <;> simp_all [Ui.style, StyleAccess.exposes, StyleOp.mutates]
  · intro op
    rfl

/-- Witness for C7 at a concrete input: the color getter, which the
immutable `Style` exposes, is non-mutating. -/
theorem style_mutability_split_witness :
    StyleOp.color.mutates = false :=
  (style_mutability_split Context.mk' Ui.mk').2.2.1 StyleOp.color rfl

/-- Model of an RGBA color (`easy-imgui`'s `Color`), components as
rationals. -/
structure Color where
  r : ℚ
  g : ℚ
  b : ℚ
  a : ℚ
deriving DecidableEq, Repr

/-- Index into the style's color array (`ColorId::bits() as usize`). -/
abbrev ColorId := Nat

/-- Model of the fields of the native `ImGuiStyle` that `style.rs`
reads or writes through `StylePtr`. -/
structure ImGuiStyle where
  Alpha : ℚ
  Colors : ColorId → Color

namespace StylePtr

/-- Model of `StylePtr::color`: read the stored color at the id's
index. -/
def color (s : ImGuiStyle) (id : ColorId) : Color :=
  s.Colors id

/-- Model of `StylePtr::alpha`: read the style's global `Alpha`. -/
def alpha (s : ImGuiStyle) : ℚ :=
  s.Alpha

/-- Model of `StylePtr::set_color` (an `&mut self` method). -/
def set_color (s : ImGuiStyle) (id : ColorId) (c : Color) : ImGuiStyle :=
  { s with Colors := fun i => if i = id then c else s.Colors i }

/-- Model of `StylePtr::set_alpha` (an `&mut self` method). -/
def set_alpha (s : ImGuiStyle) (a : ℚ) : ImGuiStyle :=
  { s with Alpha := a }

/-- Model of `StylePtr::color_alpha`: take the stored color and scale
its alpha component by `alpha() * alpha_mul` (`c.a *= a * alpha_mul`).
The Rust method takes `&self`, which is why the embedding returns only
the color and no new style state. -/
def color_alpha (s : ImGuiStyle) (id : ColorId) (alpha_mul : ℚ) : Color :=
  let c := color s id
  let a := alpha s
  { c with a := c.a * (a * alpha_mul) }

end StylePtr

/-- C10: for every color id and factor, `color_alpha` returns the stored
color with `r`, `g`, `b` unchanged and alpha equal to the stored alpha
times the style's global `Alpha` times the factor; being an `&self`
method it returns only a color and leaves the style state untouched. -/
theorem color_alpha_scales_only_alpha (s : ImGuiStyle) (id : ColorId)
    (alpha_mul : ℚ) :
    (StylePtr.color_alpha s id alpha_mul).r = (StylePtr.color s id).r
    ∧ (StylePtr.color_alpha s id alpha_mul).g = (StylePtr.color s id).g
    ∧ (StylePtr.color_alpha s id alpha_mul).b = (StylePtr.color s id).b
    ∧ (StylePtr.color_alpha s id alpha_mul).a
        = (StylePtr.color s id).a * s.Alpha * alpha_mul := by
  refine ⟨rfl, rfl, rfl, ?_⟩
  show (StylePtr.color s id).a * (StylePtr.alpha s * alpha_mul)
      = (StylePtr.color s id).a * s.Alpha * alpha_mul
  rw [StylePtr.alpha, mul_assoc]

end EasyImgui
